import Mathlib

/-!
# imagego: the image format converter `convert <input file> <output file> <format>`

A shallow embedding of `src/imagego/main.go`.  The program is one function, `main`, a
linear sequence of calls into the Go standard library and the `golang.org/x/image`
codecs.  Those collaborators are not part of the repository, so they are taken as the
fields of `Lib`; `main` itself is embedded statement by statement, every early `return`
of the source being one branch of the definition.

The state a run can observe or change is made explicit:

* the file system, a map from paths to file contents (`FS`);
* standard output, the list of the strings handed to `fmt.Println` / `fmt.Printf`,
  one entry per call, newline included;
* the list of library calls that touch files or codecs (`Call`), in program order.
-/

namespace Imagego

/-- The content of a file: its sequence of bytes. -/
abbrev Bytes := List Nat

/-- A Go `error`, represented by the text `%v` prints for it (`err.Error()`). -/
abbrev GoError := String

/-- The file system: the content found at each path, `none` where nothing exists.
Paths are keys: two different strings that name one file (`in.png` and `./in.png`, a
link and its target) are not related by this map. -/
abbrev FS := String → Option Bytes

/-- The effect of a successful `os.Create path`: the file exists and is empty
(created when absent, truncated when present); every other key of the map is
unchanged. -/
def FS.create (fs : FS) (path : String) : FS :=
  fun q => if q = path then some [] else fs q

/-- The effect of writing `bs` through the handle `os.Create path` returned: the bytes
are appended to the content of that file. -/
def FS.write (fs : FS) (path : String) (bs : Bytes) : FS :=
  fun q => if q = path then some ((fs q).getD [] ++ bs) else fs q

/-- The five encoders the `switch` of `main` can call: `jpeg.Encode(outFile, img, nil)`,
`png.Encode(outFile, img)`, `gif.Encode(outFile, img, nil)`, `bmp.Encode(outFile, img)`
and `tiff.Encode(outFile, img, nil)`. -/
inductive Encoder where
  | jpeg
  | png
  | gif
  | bmp
  | tiff
  deriving DecidableEq, Repr

/-- The library calls of `main` that touch a file or a codec, as recorded in program
order.  `Img` is the type of decoded images (`image.Image`). -/
inductive Call (Img : Type) where
  | osOpen (path : String)
  | imageDecode (file : Bytes)
  | osCreate (path : String)
  | encode (enc : Encoder) (img : Img)
  deriving DecidableEq

/-- The collaborators of `main`, none of which is code of the repository.

* `lowerTable`: the Unicode case table `unicode.ToLower` consults for runes above
  `unicode.MaxASCII`.
* `osOpen fs path`: `os.Open path` in file system `fs`, followed by the reads made
  through the handle: the error, or the bytes the handle delivers.
* `imageDecode file`: `image.Decode` on those bytes: the error, or the decoded image
  and the name of the detected format.
* `osCreate fs path`: `os.Create path` in `fs`: the error if it fails, `none` if it
  succeeds (its effect on success is `FS.create`).
* `encode enc img`: the encoder `enc` applied to `img` with the default options: the
  bytes it wrote to the output handle and the error it returned, if any.  A run calls
  an encoder at most once, so letting the result depend on the image only loses no
  behaviour of a single run. -/
structure Lib (Img : Type) where
  lowerTable : Char → Char
  osOpen : FS → String → Except GoError Bytes
  imageDecode : Bytes → Except GoError (Img × String)
  osCreate : FS → String → Option GoError
  encode : Encoder → Img → Bytes × Option GoError

/-- Go `unicode.ToLower`: a rune up to `unicode.MaxASCII` is lowered when it lies in
`A..Z` and returned unchanged otherwise; any other rune goes through the case table. -/
def unicodeToLower (lowerTable : Char → Char) (r : Char) : Char :=
  if r.toNat ≤ 127 then
    (if 65 ≤ r.toNat ∧ r.toNat ≤ 90 then Char.ofNat (r.toNat + 32) else r)
  else lowerTable r

/-- Go `strings.ToLower`: every rune of the string mapped by `unicode.ToLower`. -/
def stringsToLower (lowerTable : Char → Char) (s : String) : String :=
  String.mk (s.data.map (unicodeToLower lowerTable))

/-- What a run leaves behind: the text printed, the file system, the calls made. -/
structure Run (Img : Type) where
  stdout : List String
  fs : FS
  calls : List (Call Img)

/-- The text of `fmt.Println("Usage: convert <input file> <output file> <format>")`. -/
def usageLine : String := "Usage: convert <input file> <output file> <format>\n"

/-- The text of `fmt.Printf("Error opening input file: %v\n", err)`. -/
def openErrorLine (err : GoError) : String := "Error opening input file: " ++ err ++ "\n"

/-- The text of `fmt.Printf("Error decoding image: %v\n", err)`. -/
def decodeErrorLine (err : GoError) : String := "Error decoding image: " ++ err ++ "\n"

/-- The text of `fmt.Printf("Input image format: %s\n", formatName)`. -/
def inputFormatLine (formatName : String) : String :=
  "Input image format: " ++ formatName ++ "\n"

/-- The text of `fmt.Printf("Error creating output file: %v\n", err)`. -/
def createErrorLine (err : GoError) : String :=
  "Error creating output file: " ++ err ++ "\n"

/-- The text of `fmt.Printf("Unsupported output format: %s\n", format)`. -/
def unsupportedLine (format : String) : String :=
  "Unsupported output format: " ++ format ++ "\n"

/-- The text of `fmt.Printf("Error encoding image: %v\n", err)`. -/
def encodeErrorLine (err : GoError) : String := "Error encoding image: " ++ err ++ "\n"

/-- The text of `fmt.Println("Image conversion successful!")`. -/
def successLine : String := "Image conversion successful!\n"

/-- The `switch format` of `main` (lines 47-61): the encoder the matching `case` calls,
`none` for the `default` branch. -/
def selectEncoder (format : String) : Option Encoder :=
  if format = "jpeg" ∨ format = "jpg" then some Encoder.jpeg
  else if format = "png" then some Encoder.png
  else if format = "gif" then some Encoder.gif
  else if format = "bmp" then some Encoder.bmp
  else if format = "tiff" then some Encoder.tiff
  else none

/-- The function `main` of `src/imagego/main.go`, run on the argument vector `args`
(`os.Args`, the program name first) in the file system `fs`.  The deferred
`file.Close()` and `outFile.Close()` release the handles and change no file content. -/
def main {Img : Type} (lib : Lib Img) (args : List String) (fs : FS) : Run Img :=
  if args.length ≠ 4 then
    { stdout := [usageLine], fs := fs, calls := [] }
  else
    let inputFile := args.getD 1 ""
    let outputFile := args.getD 2 ""
    let format := stringsToLower lib.lowerTable (args.getD 3 "")
    match lib.osOpen fs inputFile with
    | Except.error err =>
      { stdout := [openErrorLine err], fs := fs, calls := [Call.osOpen inputFile] }
    | Except.ok file =>
      match lib.imageDecode file with
      | Except.error err =>
        { stdout := [decodeErrorLine err], fs := fs,
          calls := [Call.osOpen inputFile, Call.imageDecode file] }
      | Except.ok (img, formatName) =>
        match lib.osCreate fs outputFile with
        | some err =>
          { stdout := [inputFormatLine formatName, createErrorLine err], fs := fs,
            calls := [Call.osOpen inputFile, Call.imageDecode file,
                      Call.osCreate outputFile] }
        | none =>
          let fs1 := fs.create outputFile
          match selectEncoder format with
          | none =>
            { stdout := [inputFormatLine formatName, unsupportedLine format], fs := fs1,
              calls := [Call.osOpen inputFile, Call.imageDecode file,
                        Call.osCreate outputFile] }
          | some enc =>
            let written := (lib.encode enc img).1
            let fs2 := fs1.write outputFile written
            match (lib.encode enc img).2 with
            | some err =>
              { stdout := [inputFormatLine formatName, encodeErrorLine err], fs := fs2,
                calls := [Call.osOpen inputFile, Call.imageDecode file,
                          Call.osCreate outputFile, Call.encode enc img] }
            | none =>
              { stdout := [inputFormatLine formatName, successLine], fs := fs2,
                calls := [Call.osOpen inputFile, Call.imageDecode file,
                          Call.osCreate outputFile, Call.encode enc img] }

/-- The encoder calls of a run, in order, each with the image it was given. -/
def encoderCalls {Img : Type} : List (Call Img) → List (Encoder × Img)
  | [] => []
  | Call.encode enc img :: rest => (enc, img) :: encoderCalls rest
  | _ :: rest => encoderCalls rest

/-- The dispatch table as the specification words it (section 4.1, step 4): each
supported token with the encoder it selects. -/
def specTable : List (String × Encoder) :=
  [("jpeg", Encoder.jpeg), ("jpg", Encoder.jpeg), ("png", Encoder.png),
   ("gif", Encoder.gif), ("bmp", Encoder.bmp), ("tiff", Encoder.tiff)]

/-- The six supported tokens of the specification. -/
def supportedTokens : List String := specTable.map Prod.fst

/-- A library for concrete runs.  Images are numbers.  A file opens when it exists.
The bytes `[137, n]` decode to image `n` of format `png`, the bytes `[255, 216, n]` to
image `n` of format `jpeg`, nothing else decodes.  `os.Create` fails on `/ro/out` and
succeeds elsewhere.  The PNG encoder writes `[137, n]` for image `n`, the JPEG, BMP and
TIFF encoders write three bytes, and the GIF encoder fails after writing one byte. -/
def demoLib : Lib Nat where
  lowerTable := fun c => c
  osOpen := fun fs path =>
    match fs path with
    | some bs => Except.ok bs
    | none => Except.error ("open " ++ path ++ ": no such file or directory")
  imageDecode := fun bs =>
    match bs with
    | [137, n] => Except.ok (n, "png")
    | [255, 216, n] => Except.ok (n, "jpeg")
    | _ => Except.error "image: unknown format"
  osCreate := fun _ path =>
    if path = "/ro/out" then some ("open " ++ path ++ ": permission denied") else none
  encode := fun enc img =>
    match enc with
    | Encoder.png => ([137, img], none)
    | Encoder.gif => ([71], some "gif: write failed")
    | Encoder.jpeg => ([255, 216, img], none)
    | Encoder.bmp => ([66, 77, img], none)
    | Encoder.tiff => ([73, 73, img], none)

/-- A file system for concrete runs: `in.png` and `photo.jpg` are decodable images,
`bad.bin` is not, `out.png` already holds five bytes, nothing else exists. -/
def demoFS : FS := fun q =>
  if q = "in.png" then some [137, 7]
  else if q = "photo.jpg" then some [255, 216, 5]
  else if q = "bad.bin" then some [0]
  else if q = "out.png" then some [9, 9, 9, 9, 9]
  else none

/-- A capital ASCII letter, `A..Z`. -/
def isUpperAscii (c : Char) : Bool := decide (65 ≤ c.toNat) && decide (c.toNat ≤ 90)

/-- Two runes that are the same rune, or the capital and the small form of one ASCII
letter (the small form of a capital lies 32 code points above it). -/
def sameLetter (c d : Char) : Bool :=
  decide (c = d) || (isUpperAscii c && decide (d.toNat = c.toNat + 32)) ||
    (isUpperAscii d && decide (c.toNat = d.toNat + 32))

/-- Two format tokens that differ only in letter case: they have the same length and,
position by position, the same letter. -/
def differOnlyInCase : List Char → List Char → Bool
  | [], [] => true
  | c :: cs, d :: ds => sameLetter c d && differOnlyInCase cs ds
  | _, _ => false

/-! ## Lemmas on the dispatch and on the shape of a run -/

theorem selectEncoder_eq_some_iff (format : String) (enc : Encoder) :
    selectEncoder format = some enc ↔ (format, enc) ∈ specTable := by
  unfold selectEncoder specTable
  by_cases h1 : format = "jpeg"
  · subst h1; cases enc <;> simp
  by_cases h2 : format = "jpg"
  · subst h2; cases enc <;> simp
  by_cases h3 : format = "png"
  · subst h3; cases enc <;> simp
  by_cases h4 : format = "gif"
  · subst h4; cases enc <;> simp
  by_cases h5 : format = "bmp"
  · subst h5; cases enc <;> simp
  by_cases h6 : format = "tiff"
  · subst h6; cases enc <;> simp
  simp [h1, h2, h3, h4, h5, h6]

theorem selectEncoder_eq_none_iff (format : String) :
    selectEncoder format = none ↔ format ∉ supportedTokens := by
  unfold selectEncoder supportedTokens specTable
  by_cases h1 : format = "jpeg"
  · subst h1; simp
  by_cases h2 : format = "jpg"
  · subst h2; simp
  by_cases h3 : format = "png"
  · subst h3; simp
  by_cases h4 : format = "gif"
  · subst h4; simp
  by_cases h5 : format = "bmp"
  · subst h5; simp
  by_cases h6 : format = "tiff"
  · subst h6; simp
  simp [h1, h2, h3, h4, h5, h6]

/-- The run on a four-element argument vector, the argument-count test resolved. -/
theorem main_four {Img : Type} (lib : Lib Img) (prog inp out tok : String) (fs : FS) :
    main lib [prog, inp, out, tok] fs =
      match lib.osOpen fs inp with
      | Except.error err =>
        { stdout := [openErrorLine err], fs := fs, calls := [Call.osOpen inp] }
      | Except.ok file =>
        match lib.imageDecode file with
        | Except.error err =>
          { stdout := [decodeErrorLine err], fs := fs,
            calls := [Call.osOpen inp, Call.imageDecode file] }
        | Except.ok (img, formatName) =>
          match lib.osCreate fs out with
          | some err =>
            { stdout := [inputFormatLine formatName, createErrorLine err], fs := fs,
              calls := [Call.osOpen inp, Call.imageDecode file, Call.osCreate out] }
          | none =>
            match selectEncoder (stringsToLower lib.lowerTable tok) with
            | none =>
              { stdout := [inputFormatLine formatName,
                           unsupportedLine (stringsToLower lib.lowerTable tok)],
                fs := fs.create out,
                calls := [Call.osOpen inp, Call.imageDecode file, Call.osCreate out] }
            | some enc =>
              match (lib.encode enc img).2 with
              | some err =>
                { stdout := [inputFormatLine formatName, encodeErrorLine err],
                  fs := (fs.create out).write out (lib.encode enc img).1,
                  calls := [Call.osOpen inp, Call.imageDecode file, Call.osCreate out,
                            Call.encode enc img] }
              | none =>
                { stdout := [inputFormatLine formatName, successLine],
                  fs := (fs.create out).write out (lib.encode enc img).1,
                  calls := [Call.osOpen inp, Call.imageDecode file, Call.osCreate out,
                            Call.encode enc img] } := by
  simp [main]

/-- An argument vector of length four is a program name and three user arguments. -/
theorem length_four {α : Type} (args : List α) (h : args.length = 4) :
    ∃ a b c d, args = [a, b, c, d] := by
  match args, h with
  | [a, b, c, d], _ => exact ⟨a, b, c, d, rfl⟩

/-- The run once open, decode and create have succeeded and the `switch` has selected
an encoder: the encoder is called once, on the decoded image, and what it wrote is the
content of the output file. -/
theorem main_supported {Img : Type} (lib : Lib Img) (prog inp out tok : String) (fs : FS)
    (file : Bytes) (img : Img) (formatName : String) (enc : Encoder)
    (hopen : lib.osOpen fs inp = Except.ok file)
    (hdec : lib.imageDecode file = Except.ok (img, formatName))
    (hcreate : lib.osCreate fs out = none)
    (hsel : selectEncoder (stringsToLower lib.lowerTable tok) = some enc) :
    main lib [prog, inp, out, tok] fs =
      { stdout := [inputFormatLine formatName,
                   match (lib.encode enc img).2 with
                   | some err => encodeErrorLine err
                   | none => successLine],
        fs := (fs.create out).write out (lib.encode enc img).1,
        calls := [Call.osOpen inp, Call.imageDecode file, Call.osCreate out,
                  Call.encode enc img] } := by
  rw [main_four]
  simp only [hopen, hdec, hcreate, hsel]
  cases (lib.encode enc img).2 <;> rfl

/-- The run once open, decode and create have succeeded and the `switch` has taken its
`default` branch. -/
theorem main_unsupported {Img : Type} (lib : Lib Img) (prog inp out tok : String) (fs : FS)
    (file : Bytes) (img : Img) (formatName : String)
    (hopen : lib.osOpen fs inp = Except.ok file)
    (hdec : lib.imageDecode file = Except.ok (img, formatName))
    (hcreate : lib.osCreate fs out = none)
    (hsel : selectEncoder (stringsToLower lib.lowerTable tok) = none) :
    main lib [prog, inp, out, tok] fs =
      { stdout := [inputFormatLine formatName,
                   unsupportedLine (stringsToLower lib.lowerTable tok)],
        fs := fs.create out,
        calls := [Call.osOpen inp, Call.imageDecode file, Call.osCreate out] } := by
  rw [main_four]
  simp only [hopen, hdec, hcreate, hsel]

theorem FS.write_create_same (fs : FS) (path : String) (bs : Bytes) :
    (fs.create path).write path bs path = some bs := by
  simp [FS.write, FS.create]

theorem FS.write_create_other (fs : FS) (path q : String) (bs : Bytes) (h : q ≠ path) :
    (fs.create path).write path bs q = fs q := by
  simp [FS.write, FS.create, h]

theorem FS.create_same (fs : FS) (path : String) : fs.create path path = some [] := by
  simp [FS.create]

/-! ## Lemmas on the printed lines -/

/-- A line that begins with `p` differs from any text `t` that does not begin with `p`. -/
theorem append_ne_of_take_ne (p x t : String)
    (h : t.data.take p.data.length ≠ p.data) : p ++ x ≠ t := by
  intro heq
  apply h
  rw [← heq, String.data_append, List.take_left]

theorem openErrorLine_ne_successLine (err : GoError) : openErrorLine err ≠ successLine := by
  unfold openErrorLine
  rw [String.append_assoc]
  exact append_ne_of_take_ne _ _ _ (by decide)

theorem decodeErrorLine_ne_successLine (err : GoError) :
    decodeErrorLine err ≠ successLine := by
  unfold decodeErrorLine
  rw [String.append_assoc]
  exact append_ne_of_take_ne _ _ _ (by decide)

theorem createErrorLine_ne_successLine (err : GoError) :
    createErrorLine err ≠ successLine := by
  unfold createErrorLine
  rw [String.append_assoc]
  exact append_ne_of_take_ne _ _ _ (by decide)

theorem encodeErrorLine_ne_successLine (err : GoError) :
    encodeErrorLine err ≠ successLine := by
  unfold encodeErrorLine
  rw [String.append_assoc]
  exact append_ne_of_take_ne _ _ _ (by decide)

theorem unsupportedLine_ne_successLine (format : String) :
    unsupportedLine format ≠ successLine := by
  unfold unsupportedLine
  rw [String.append_assoc]
  exact append_ne_of_take_ne _ _ _ (by decide)

theorem inputFormatLine_ne_successLine (formatName : String) :
    inputFormatLine formatName ≠ successLine := by
  unfold inputFormatLine
  rw [String.append_assoc]
  exact append_ne_of_take_ne _ _ _ (by decide)

theorem inputFormatLine_ne_unsupportedLine (formatName format : String) :
    inputFormatLine formatName ≠ unsupportedLine format := by
  intro h
  have h2 := congrArg (fun t => t.data.take 1) h
  simp [inputFormatLine, unsupportedLine, String.append_assoc, String.data_append] at h2

theorem unsupportedLine_injective (a b : String)
    (h : unsupportedLine a = unsupportedLine b) : a = b := by
  have h2 := congrArg String.data h
  simp only [unsupportedLine, String.data_append] at h2
  have h3 := List.append_cancel_right h2
  have h4 := List.append_cancel_left h3
  exact String.ext h4

/-! ## C1: wrong argument count -/

/-- C1: when `len(os.Args) != 4` the run prints exactly the usage line and makes no
library call on a file or codec (no open, no decode, no create, no encode); the file
system, the output path included, is what it was. -/
theorem C1_wrong_arg_count {Img : Type} (lib : Lib Img) (args : List String) (fs : FS)
    (h : args.length ≠ 4) :
    main lib args fs = { stdout := [usageLine], fs := fs, calls := [] } := by
  simp [main, h]

theorem C1_wrong_arg_count_witness :
    ["convert", "in.png", "out.png"].length ≠ 4 ∧
    main demoLib ["convert", "in.png", "out.png"] demoFS
      = { stdout := [usageLine], fs := demoFS, calls := [] } :=
  ⟨by decide, C1_wrong_arg_count demoLib ["convert", "in.png", "out.png"] demoFS (by decide)⟩

/-! ## C2: the dispatch table -/

/-- C2: in a run with three arguments in which open, decode and create succeed, the
lowercased format token selects the encoder as the table says (`jpeg` and `jpg` the JPEG
encoder, `png` PNG, `gif` GIF, `bmp` BMP, `tiff` TIFF); the encoder calls of the run
are then exactly one call of that encoder on the decoded image, and a token whose
lowercasing is none of the six strings leads to no encoder call at all. -/
theorem C2_dispatch_table {Img : Type} (lib : Lib Img) (prog inp out tok : String)
    (fs : FS) (file : Bytes) (img : Img) (formatName : String)
    (hopen : lib.osOpen fs inp = Except.ok file)
    (hdec : lib.imageDecode file = Except.ok (img, formatName))
    (hcreate : lib.osCreate fs out = none) :
    let format := stringsToLower lib.lowerTable tok
    let encs := encoderCalls (main lib [prog, inp, out, tok] fs).calls
    (format = "jpeg" ∨ format = "jpg" → encs = [(Encoder.jpeg, img)]) ∧
    (format = "png" → encs = [(Encoder.png, img)]) ∧
    (format = "gif" → encs = [(Encoder.gif, img)]) ∧
    (format = "bmp" → encs = [(Encoder.bmp, img)]) ∧
    (format = "tiff" → encs = [(Encoder.tiff, img)]) ∧
    (format ≠ "jpeg" ∧ format ≠ "jpg" ∧ format ≠ "png" ∧ format ≠ "gif" ∧
      format ≠ "bmp" ∧ format ≠ "tiff" → encs = []) := by
  intro format encs
  have key : ∀ enc, selectEncoder format = some enc → encs = [(enc, img)] := by
    intro enc hsel
    show encoderCalls (main lib [prog, inp, out, tok] fs).calls = _
    rw [main_supported lib prog inp out tok fs file img formatName enc hopen hdec hcreate hsel]
    rfl
  refine ⟨?_, ?_, ?_, ?_, ?_, ?_⟩
  · intro h
    apply key
    rcases h with h | h <;> rw [h] <;> rfl
  · intro h; apply key; rw [h]; rfl
  · intro h; apply key; rw [h]; rfl
  · intro h; apply key; rw [h]; rfl
  · intro h; apply key; rw [h]; rfl
  · rintro ⟨h1, h2, h3, h4, h5, h6⟩
    have hsel : selectEncoder format = none := by
      simp [selectEncoder, h1, h2, h3, h4, h5, h6]
    show encoderCalls (main lib [prog, inp, out, tok] fs).calls = _
    rw [main_unsupported lib prog inp out tok fs file img formatName hopen hdec hcreate hsel]
    rfl

theorem C2_dispatch_table_witness :
    demoLib.osOpen demoFS "in.png" = Except.ok [137, 7] ∧
    demoLib.imageDecode [137, 7] = Except.ok (7, "png") ∧
    demoLib.osCreate demoFS "out.jpg" = none ∧
    stringsToLower demoLib.lowerTable "JPG" = "jpg" ∧
    encoderCalls (main demoLib ["convert", "in.png", "out.jpg", "JPG"] demoFS).calls
      = [(Encoder.jpeg, 7)] :=
  ⟨rfl, rfl, by decide, by decide,
   (C2_dispatch_table demoLib "convert" "in.png" "out.jpg" "JPG" demoFS [137, 7] 7 "png"
      rfl rfl (by decide)).1 (Or.inr (by decide))⟩

/-! ## C3: case-insensitive dispatch -/

theorem unicodeToLower_sameLetter (lowerTable : Char → Char) (c d : Char)
    (h : sameLetter c d = true) :
    unicodeToLower lowerTable c = unicodeToLower lowerTable d := by
  have up : ∀ x y : Char, isUpperAscii x = true → y.toNat = x.toNat + 32 →
      unicodeToLower lowerTable x = unicodeToLower lowerTable y := by
    intro x y hx hy
    simp only [isUpperAscii, Bool.and_eq_true, decide_eq_true_eq] at hx
    have hx1 : x.toNat ≤ 127 := by omega
    have hy1 : y.toNat ≤ 127 := by omega
    have hy2 : ¬ (65 ≤ y.toNat ∧ y.toNat ≤ 90) := by omega
    simp only [unicodeToLower, hx1, hy1, hx, hy2, if_true, if_false, and_self]
    rw [← hy, Char.ofNat_toNat]
  simp only [sameLetter, Bool.or_eq_true, Bool.and_eq_true, decide_eq_true_eq] at h
  rcases h with (h | ⟨h1, h2⟩) | ⟨h1, h2⟩
  · rw [h]
  · exact up c d h1 h2
  · exact (up d c h1 h2).symm

theorem map_unicodeToLower_differOnlyInCase (lowerTable : Char → Char) :
    ∀ a b : List Char, differOnlyInCase a b = true →
      a.map (unicodeToLower lowerTable) = b.map (unicodeToLower lowerTable)
  | [], [], _ => rfl
  | [], _ :: _, h => by simp [differOnlyInCase] at h
  | _ :: _, [], h => by simp [differOnlyInCase] at h
  | c :: cs, d :: ds, h => by
    simp only [differOnlyInCase, Bool.and_eq_true] at h
    simp only [List.map_cons]
    rw [unicodeToLower_sameLetter lowerTable c d h.1,
        map_unicodeToLower_differOnlyInCase lowerTable cs ds h.2]

theorem stringsToLower_differOnlyInCase (lowerTable : Char → Char) (a b : String)
    (h : differOnlyInCase a.data b.data = true) :
    stringsToLower lowerTable a = stringsToLower lowerTable b := by
  unfold stringsToLower
  rw [map_unicodeToLower_differOnlyInCase lowerTable a.data b.data h]

/-- C3: two runs that differ only in the letter case of the format token, that is in
the case of its ASCII letters `A..Z` / `a..z` (same program name, input path, output
path, library and file system), are the same run: the `switch`
takes the same branch, and the text printed, the resulting file system and the calls
made are equal.  In particular each of `PNG`, `png` and `Png` selects the PNG encoder. -/
theorem C3_case_insensitive {Img : Type} (lib : Lib Img) (prog inp out a b : String)
    (fs : FS) (h : differOnlyInCase a.data b.data = true) :
    selectEncoder (stringsToLower lib.lowerTable a)
        = selectEncoder (stringsToLower lib.lowerTable b) ∧
      main lib [prog, inp, out, a] fs = main lib [prog, inp, out, b] fs ∧
      (∀ t ∈ ["PNG", "png", "Png"],
        selectEncoder (stringsToLower lib.lowerTable t) = some Encoder.png ∧
        main lib [prog, inp, out, t] fs = main lib [prog, inp, out, "png"] fs) := by
  have hab := stringsToLower_differOnlyInCase lib.lowerTable a b h
  refine ⟨by rw [hab], ?_, ?_⟩
  · rw [main_four, main_four, hab]
  · intro t ht
    have ht2 : stringsToLower lib.lowerTable t = "png" := by
      simp only [List.mem_cons, List.mem_singleton, List.not_mem_nil, or_false] at ht
      rcases ht with rfl | rfl | rfl <;> rfl
    have hp : stringsToLower lib.lowerTable "png" = "png" := rfl
    refine ⟨by rw [ht2]; rfl, ?_⟩
    rw [main_four, main_four, ht2, hp]

theorem C3_case_insensitive_witness :
    differOnlyInCase "TiFf".data "tIFF".data = true ∧
    main demoLib ["convert", "in.png", "out.tif", "TiFf"] demoFS
      = main demoLib ["convert", "in.png", "out.tif", "tIFF"] demoFS :=
  ⟨by decide,
   (C3_case_insensitive demoLib "convert" "in.png" "out.tif" "TiFf" "tIFF" demoFS
      (by decide)).2.1⟩

/-! ## C4: the input does not open -/

/-- C4: in a run with three arguments in which `os.Open` of the input path fails, the
only text printed is the line `Error opening input file: <err>`, the file system after
the run is the file system before it (so the output path is neither created nor
truncated), and the only call made is the failed open: no decode, no create, no
encoder. -/
theorem C4_open_failure {Img : Type} (lib : Lib Img) (prog inp out tok : String)
    (fs : FS) (err : GoError) (hopen : lib.osOpen fs inp = Except.error err) :
    (main lib [prog, inp, out, tok] fs).stdout = ["Error opening input file: " ++ err ++ "\n"] ∧
    (main lib [prog, inp, out, tok] fs).fs = fs ∧
    (main lib [prog, inp, out, tok] fs).fs out = fs out ∧
    (main lib [prog, inp, out, tok] fs).calls = [Call.osOpen inp] := by
  rw [main_four]
  simp [hopen, openErrorLine]

theorem C4_open_failure_witness :
    demoLib.osOpen demoFS "missing.png"
      = Except.error "open missing.png: no such file or directory" ∧
    (main demoLib ["convert", "missing.png", "out.png", "png"] demoFS).stdout
      = ["Error opening input file: open missing.png: no such file or directory\n"] ∧
    (main demoLib ["convert", "missing.png", "out.png", "png"] demoFS).fs "out.png"
      = some [9, 9, 9, 9, 9] :=
  ⟨rfl,
   (C4_open_failure demoLib "convert" "missing.png" "out.png" "png" demoFS
      "open missing.png: no such file or directory" rfl).1,
   (C4_open_failure demoLib "convert" "missing.png" "out.png" "png" demoFS
      "open missing.png: no such file or directory" rfl).2.2.1⟩

/-! ## C6: the input does not decode -/

/-- C6: in a run with three arguments in which the input opens and `image.Decode`
fails, whatever the format token is, the only text printed is the line
`Error decoding image: <err>` (the detected-format line is not printed), the file system
is unchanged (the output path is neither created nor truncated), and the calls made are
the open and the decode: no create, no encoder. -/
theorem C6_decode_failure {Img : Type} (lib : Lib Img) (prog inp out tok : String)
    (fs : FS) (file : Bytes) (err : GoError)
    (hopen : lib.osOpen fs inp = Except.ok file)
    (hdec : lib.imageDecode file = Except.error err) :
    (main lib [prog, inp, out, tok] fs).stdout = ["Error decoding image: " ++ err ++ "\n"] ∧
    (main lib [prog, inp, out, tok] fs).fs = fs ∧
    (main lib [prog, inp, out, tok] fs).calls = [Call.osOpen inp, Call.imageDecode file] := by
  rw [main_four]
  simp [hopen, hdec, decodeErrorLine]

theorem C6_decode_failure_witness :
    demoLib.osOpen demoFS "bad.bin" = Except.ok [0] ∧
    demoLib.imageDecode [0] = Except.error "image: unknown format" ∧
    (main demoLib ["convert", "bad.bin", "out.png", "png"] demoFS).stdout
      = ["Error decoding image: image: unknown format\n"] :=
  ⟨rfl, rfl,
   (C6_decode_failure demoLib "convert" "bad.bin" "out.png" "png" demoFS [0]
      "image: unknown format" rfl rfl).1⟩

/-! ## C7: the successful run -/

/-- C7: in a run with three arguments in which open, decode and create succeed, the
lowercased token is a supported one and the encoder the table gives for it returns no
error, the text printed is exactly the line `Input image format: <name>` with the name
the decoder returned, followed by `Image conversion successful!`; the output file holds
exactly the bytes that encoder wrote for the decoded image, whatever it held before;
every other path is unchanged. -/
theorem C7_success {Img : Type} (lib : Lib Img) (prog inp out tok : String)
    (fs : FS) (file : Bytes) (img : Img) (formatName : String) (enc : Encoder)
    (hopen : lib.osOpen fs inp = Except.ok file)
    (hdec : lib.imageDecode file = Except.ok (img, formatName))
    (hcreate : lib.osCreate fs out = none)
    (htok : (stringsToLower lib.lowerTable tok, enc) ∈ specTable)
    (henc : (lib.encode enc img).2 = none) :
    (main lib [prog, inp, out, tok] fs).stdout
      = ["Input image format: " ++ formatName ++ "\n", "Image conversion successful!\n"] ∧
    (main lib [prog, inp, out, tok] fs).fs out = some (lib.encode enc img).1 ∧
    (∀ q, q ≠ out → (main lib [prog, inp, out, tok] fs).fs q = fs q) ∧
    encoderCalls (main lib [prog, inp, out, tok] fs).calls = [(enc, img)] := by
  have hsel := (selectEncoder_eq_some_iff _ _).2 htok
  rw [main_supported lib prog inp out tok fs file img formatName enc hopen hdec hcreate hsel]
  simp only [henc]
  exact ⟨rfl, FS.write_create_same _ _ _, fun q hq => FS.write_create_other _ _ _ _ hq, rfl⟩

theorem C7_success_witness :
    demoLib.osOpen demoFS "photo.jpg" = Except.ok [255, 216, 5] ∧
    demoLib.imageDecode [255, 216, 5] = Except.ok (5, "jpeg") ∧
    demoLib.osCreate demoFS "out.png" = none ∧
    (stringsToLower demoLib.lowerTable "png", Encoder.png) ∈ specTable ∧
    (demoLib.encode Encoder.png 5).2 = none ∧
    (main demoLib ["convert", "photo.jpg", "out.png", "png"] demoFS).stdout
      = ["Input image format: jpeg\n", "Image conversion successful!\n"] ∧
    (main demoLib ["convert", "photo.jpg", "out.png", "png"] demoFS).fs "out.png"
      = some [137, 5] :=
  ⟨rfl, rfl, by decide, by decide, by decide,
   (C7_success demoLib "convert" "photo.jpg" "out.png" "png" demoFS [255, 216, 5] 5 "jpeg"
      Encoder.png rfl rfl (by decide) (by decide) (by decide)).1,
   (C7_success demoLib "convert" "photo.jpg" "out.png" "png" demoFS [255, 216, 5] 5 "jpeg"
      Encoder.png rfl rfl (by decide) (by decide) (by decide)).2.1⟩

/-! ## C5: unsupported format token -/

/-- C5, as the code has it: in a run with three arguments in which the input opens and
decodes, the output file is created and the lowercased format token is none of `jpeg`,
`jpg`, `png`, `gif`, `bmp`, `tiff`, the run prints the detected-format line and then the
unsupported-output-format message and stops: no encoder is called and no byte is written
to the output file.  The output path has been created or truncated by then: after the
run it exists with empty content. -/
theorem C5_unsupported_format {Img : Type} (lib : Lib Img) (prog inp out tok : String)
    (fs : FS) (file : Bytes) (img : Img) (formatName : String)
    (hopen : lib.osOpen fs inp = Except.ok file)
    (hdec : lib.imageDecode file = Except.ok (img, formatName))
    (hcreate : lib.osCreate fs out = none)
    (htok : stringsToLower lib.lowerTable tok ∉ supportedTokens) :
    (main lib [prog, inp, out, tok] fs).stdout
      = ["Input image format: " ++ formatName ++ "\n",
         "Unsupported output format: " ++ stringsToLower lib.lowerTable tok ++ "\n"] ∧
    encoderCalls (main lib [prog, inp, out, tok] fs).calls = [] ∧
    (main lib [prog, inp, out, tok] fs).fs out = some [] := by
  have hsel := (selectEncoder_eq_none_iff _).2 htok
  rw [main_unsupported lib prog inp out tok fs file img formatName hopen hdec hcreate hsel]
  exact ⟨rfl, rfl, FS.create_same _ _⟩

theorem C5_unsupported_format_witness :
    demoLib.osOpen demoFS "in.png" = Except.ok [137, 7] ∧
    demoLib.imageDecode [137, 7] = Except.ok (7, "png") ∧
    demoLib.osCreate demoFS "new.webp" = none ∧
    stringsToLower demoLib.lowerTable "webp" ∉ supportedTokens ∧
    (main demoLib ["convert", "in.png", "new.webp", "webp"] demoFS).stdout
      = ["Input image format: png\n", "Unsupported output format: webp\n"] ∧
    (main demoLib ["convert", "in.png", "new.webp", "webp"] demoFS).fs "new.webp"
      = some [] :=
  ⟨rfl, rfl, by decide, by decide,
   (C5_unsupported_format demoLib "convert" "in.png" "new.webp" "webp" demoFS [137, 7] 7
      "png" rfl rfl (by decide) (by decide)).1,
   (C5_unsupported_format demoLib "convert" "in.png" "new.webp" "webp" demoFS [137, 7] 7
      "png" rfl rfl (by decide) (by decide)).2.2⟩

/-- C5 as stated fails on two runs whose input `in.png` opens and decodes and whose
token `webp` is unsupported.  With output path `out.png`, which holds five bytes, the
unsupported-format message is printed but the output path is not left untouched: it is
truncated to the empty file.  With output path `/ro/out`, which cannot be created, the
unsupported-format message is not printed at all: the run stops at the create error. -/
theorem C5_counterexample :
    demoLib.osOpen demoFS "in.png" = Except.ok [137, 7] ∧
    demoLib.imageDecode [137, 7] = Except.ok (7, "png") ∧
    stringsToLower demoLib.lowerTable "webp" ∉ supportedTokens ∧
    (main demoLib ["convert", "in.png", "out.png", "webp"] demoFS).stdout
      = ["Input image format: png\n", "Unsupported output format: webp\n"] ∧
    demoFS "out.png" = some [9, 9, 9, 9, 9] ∧
    (main demoLib ["convert", "in.png", "out.png", "webp"] demoFS).fs "out.png" = some [] ∧
    (main demoLib ["convert", "in.png", "out.png", "webp"] demoFS).fs "out.png"
      ≠ demoFS "out.png" ∧
    (main demoLib ["convert", "in.png", "/ro/out", "webp"] demoFS).stdout
      = ["Input image format: png\n",
         "Error creating output file: open /ro/out: permission denied\n"] ∧
    unsupportedLine (stringsToLower demoLib.lowerTable "webp")
      ∉ (main demoLib ["convert", "in.png", "/ro/out", "webp"] demoFS).stdout :=
  ⟨rfl, rfl, by decide, by decide, by decide, by decide, by decide, by decide, by decide⟩

/-! ## C8: every failure is terminal, success needs every stage -/

/-- C8: each of the six failure classes ends the run at its stage, with one message
naming that stage as the last line printed and no call of a later stage:
wrong argument count prints the usage line only; an open error prints the open-error
line only, after the open call; a decode error prints the decode-error line only, after
open and decode; a create error prints the create-error line after the detected-format
line, after open, decode and create; an unsupported token prints the unsupported-format
line after the detected-format line, with no encoder call; an encoder error prints the
encode-error line after the detected-format line, after the one encoder call.
Consequently `Image conversion successful!` is printed if and only if there are three
arguments, open, decode and create succeed, the lowercased token is a supported one and
the encoder the table gives for it returns no error. -/
theorem C8_failures_terminal {Img : Type} (lib : Lib Img) (args : List String) (fs : FS) :
    (args.length ≠ 4 →
      main lib args fs = { stdout := [usageLine], fs := fs, calls := [] }) ∧
    (∀ prog inp out tok, args = [prog, inp, out, tok] →
      (∀ err, lib.osOpen fs inp = Except.error err →
        main lib args fs =
          { stdout := [openErrorLine err], fs := fs, calls := [Call.osOpen inp] }) ∧
      (∀ file, lib.osOpen fs inp = Except.ok file →
        (∀ err, lib.imageDecode file = Except.error err →
          main lib args fs =
            { stdout := [decodeErrorLine err], fs := fs,
              calls := [Call.osOpen inp, Call.imageDecode file] }) ∧
        (∀ img formatName, lib.imageDecode file = Except.ok (img, formatName) →
          (∀ err, lib.osCreate fs out = some err →
            main lib args fs =
              { stdout := [inputFormatLine formatName, createErrorLine err], fs := fs,
                calls := [Call.osOpen inp, Call.imageDecode file, Call.osCreate out] }) ∧
          (lib.osCreate fs out = none →
            (stringsToLower lib.lowerTable tok ∉ supportedTokens →
              main lib args fs =
                { stdout := [inputFormatLine formatName,
                             unsupportedLine (stringsToLower lib.lowerTable tok)],
                  fs := fs.create out,
                  calls := [Call.osOpen inp, Call.imageDecode file, Call.osCreate out] }) ∧
            (∀ enc, (stringsToLower lib.lowerTable tok, enc) ∈ specTable →
              (∀ err, (lib.encode enc img).2 = some err →
                main lib args fs =
                  { stdout := [inputFormatLine formatName, encodeErrorLine err],
                    fs := (fs.create out).write out (lib.encode enc img).1,
                    calls := [Call.osOpen inp, Call.imageDecode file, Call.osCreate out,
                              Call.encode enc img] }) ∧
              ((lib.encode enc img).2 = none →
                main lib args fs =
                  { stdout := [inputFormatLine formatName, successLine],
                    fs := (fs.create out).write out (lib.encode enc img).1,
                    calls := [Call.osOpen inp, Call.imageDecode file, Call.osCreate out,
                              Call.encode enc img] })))))) ∧
    (successLine ∈ (main lib args fs).stdout ↔
      ∃ prog inp out tok file img formatName enc,
        args = [prog, inp, out, tok] ∧
        lib.osOpen fs inp = Except.ok file ∧
        lib.imageDecode file = Except.ok (img, formatName) ∧
        lib.osCreate fs out = none ∧
        (stringsToLower lib.lowerTable tok, enc) ∈ specTable ∧
        (lib.encode enc img).2 = none) := by
  refine ⟨fun h => by simp [main, h], ?_, ?_⟩
  · rintro prog inp out tok rfl
    refine ⟨fun err hopen => by rw [main_four]; simp only [hopen], fun file hopen => ?_⟩
    refine ⟨fun err hdec => by rw [main_four]; simp only [hopen, hdec],
      fun img formatName hdec => ?_⟩
    refine ⟨fun err hcreate => by rw [main_four]; simp only [hopen, hdec, hcreate],
      fun hcreate => ?_⟩
    refine ⟨fun htok => ?_, fun enc htok => ?_⟩
    · exact main_unsupported lib prog inp out tok fs file img formatName hopen hdec hcreate
        ((selectEncoder_eq_none_iff _).2 htok)
    · have hrun := main_supported lib prog inp out tok fs file img formatName enc hopen hdec
        hcreate ((selectEncoder_eq_some_iff _ _).2 htok)
      refine ⟨fun err henc => ?_, fun henc => ?_⟩
      · rw [hrun]; simp only [henc]
      · rw [hrun]; simp only [henc]
  · constructor
    · intro hmem
      by_cases hlen : args.length = 4
      · obtain ⟨prog, inp, out, tok, rfl⟩ := length_four args hlen
        rw [main_four] at hmem
        cases hopen : lib.osOpen fs inp with
        | error err =>
          simp only [hopen, List.mem_singleton] at hmem
          exact absurd hmem.symm (openErrorLine_ne_successLine err)
        | ok file =>
          cases hdec : lib.imageDecode file with
          | error err =>
            simp only [hopen, hdec, List.mem_singleton] at hmem
            exact absurd hmem.symm (decodeErrorLine_ne_successLine err)
          | ok res =>
            obtain ⟨img, formatName⟩ := res
            cases hcreate : lib.osCreate fs out with
            | some err =>
              simp only [hopen, hdec, hcreate, List.mem_cons, List.mem_singleton,
                List.not_mem_nil, or_false] at hmem
              rcases hmem with h | h
              · exact absurd h.symm (inputFormatLine_ne_successLine formatName)
              · exact absurd h.symm (createErrorLine_ne_successLine err)
            | none =>
              cases hsel : selectEncoder (stringsToLower lib.lowerTable tok) with
              | none =>
                simp only [hopen, hdec, hcreate, hsel, List.mem_cons, List.mem_singleton,
                  List.not_mem_nil, or_false] at hmem
                rcases hmem with h | h
                · exact absurd h.symm (inputFormatLine_ne_successLine formatName)
                · exact absurd h.symm (unsupportedLine_ne_successLine _)
              | some enc =>
                cases henc : (lib.encode enc img).2 with
                | some err =>
                  simp only [hopen, hdec, hcreate, hsel, henc, List.mem_cons,
                    List.mem_singleton, List.not_mem_nil, or_false] at hmem
                  rcases hmem with h | h
                  · exact absurd h.symm (inputFormatLine_ne_successLine formatName)
                  · exact absurd h.symm (encodeErrorLine_ne_successLine err)
                | none =>
                  exact ⟨prog, inp, out, tok, file, img, formatName, enc, rfl, hopen, hdec,
                    hcreate, (selectEncoder_eq_some_iff _ _).1 hsel, henc⟩
      · exfalso
        have hne : args.length ≠ 4 := hlen
        simp only [main, hne, ne_eq, not_false_eq_true, if_true, List.mem_singleton] at hmem
        exact absurd hmem (by decide)
    · rintro ⟨prog, inp, out, tok, file, img, formatName, enc, rfl, hopen, hdec, hcreate,
        htok, henc⟩
      rw [main_supported lib prog inp out tok fs file img formatName enc hopen hdec hcreate
        ((selectEncoder_eq_some_iff _ _).2 htok)]
      simp [henc]

theorem C8_failures_terminal_witness :
    main demoLib ["convert", "in.png", "out.gif", "GIF"] demoFS =
      { stdout := [inputFormatLine "png", encodeErrorLine "gif: write failed"],
        fs := (demoFS.create "out.gif").write "out.gif" [71],
        calls := [Call.osOpen "in.png", Call.imageDecode [137, 7], Call.osCreate "out.gif",
                  Call.encode Encoder.gif 7] } ∧
    successLine ∉ (main demoLib ["convert", "in.png", "out.gif", "GIF"] demoFS).stdout :=
  ⟨((((((C8_failures_terminal demoLib ["convert", "in.png", "out.gif", "GIF"] demoFS).2.1
      "convert" "in.png" "out.gif" "GIF" rfl).2 [137, 7] rfl).2 7 "png" rfl).2
      (by decide)).2 Encoder.gif (by decide)).1 "gif: write failed" (by decide),
   by decide⟩

/-! ## C9: PNG to PNG -/

/-- C9: let the PNG codec satisfy `decode (encode img) = img`.  If the bytes the input
path delivers are the PNG encoding of an image `img0`, the lowercased target token is
`png` and the output file is created, then the run succeeds, and the content it leaves
at the output path decodes to exactly the image the input decodes to, namely `img0`
(same pixel data, hence same dimensions). -/
theorem C9_png_roundtrip {Img : Type} (lib : Lib Img) (prog inp out tok : String)
    (fs : FS) (img0 : Img) (file : Bytes)
    (hcodec : ∀ (img : Img) (bs : Bytes), lib.encode Encoder.png img = (bs, none) →
      ∃ name, lib.imageDecode bs = Except.ok (img, name))
    (hinput : lib.encode Encoder.png img0 = (file, none))
    (hopen : lib.osOpen fs inp = Except.ok file)
    (htok : stringsToLower lib.lowerTable tok = "png")
    (hcreate : lib.osCreate fs out = none) :
    successLine ∈ (main lib [prog, inp, out, tok] fs).stdout ∧
    encoderCalls (main lib [prog, inp, out, tok] fs).calls = [(Encoder.png, img0)] ∧
    ∃ written nameIn nameOut,
      (main lib [prog, inp, out, tok] fs).fs out = some written ∧
      lib.imageDecode file = Except.ok (img0, nameIn) ∧
      lib.imageDecode written = Except.ok (img0, nameOut) := by
  obtain ⟨nameIn, hdec⟩ := hcodec img0 file hinput
  have hsel : selectEncoder (stringsToLower lib.lowerTable tok) = some Encoder.png := by
    rw [htok]; rfl
  rw [main_supported lib prog inp out tok fs file img0 nameIn Encoder.png hopen hdec hcreate
    hsel]
  simp only [hinput]
  refine ⟨by simp, rfl, file, nameIn, nameIn, FS.write_create_same _ _ _, hdec, hdec⟩

theorem C9_png_roundtrip_witness :
    (∀ (img : Nat) (bs : Bytes), demoLib.encode Encoder.png img = (bs, none) →
      ∃ name, demoLib.imageDecode bs = Except.ok (img, name)) ∧
    demoLib.encode Encoder.png 7 = ([137, 7], none) ∧
    demoLib.osOpen demoFS "in.png" = Except.ok [137, 7] ∧
    stringsToLower demoLib.lowerTable "PNG" = "png" ∧
    demoLib.osCreate demoFS "out.png" = none ∧
    successLine ∈ (main demoLib ["convert", "in.png", "out.png", "PNG"] demoFS).stdout :=
  have hcodec : ∀ (img : Nat) (bs : Bytes), demoLib.encode Encoder.png img = (bs, none) →
      ∃ name, demoLib.imageDecode bs = Except.ok (img, name) := by
    intro img bs h
    have hbs : bs = [137, img] := (congrArg Prod.fst h).symm
    exact ⟨"png", by rw [hbs]; rfl⟩
  ⟨hcodec, rfl, rfl, by decide, by decide,
   (C9_png_roundtrip demoLib "convert" "in.png" "out.png" "PNG" demoFS 7 [137, 7]
      hcodec rfl rfl (by decide) (by decide)).1⟩

/-! ## C10: the output file is created before the token is validated -/

/-- C10: in a run with three arguments in which open, decode and create succeed, the
output path exists after the run.  When the lowercased token is unsupported it exists
with empty content, whatever it held before the run, and the last line printed is the
unsupported-format message carrying the lowercased token; when lowercasing changed the
token, the message carrying the token as typed is not printed. -/
theorem C10_create_before_validation {Img : Type} (lib : Lib Img)
    (prog inp out tok : String) (fs : FS) (file : Bytes) (img : Img) (formatName : String)
    (hopen : lib.osOpen fs inp = Except.ok file)
    (hdec : lib.imageDecode file = Except.ok (img, formatName))
    (hcreate : lib.osCreate fs out = none) :
    ((main lib [prog, inp, out, tok] fs).fs out).isSome = true ∧
    (stringsToLower lib.lowerTable tok ∉ supportedTokens →
      (main lib [prog, inp, out, tok] fs).fs out = some [] ∧
      (main lib [prog, inp, out, tok] fs).stdout
        = ["Input image format: " ++ formatName ++ "\n",
           "Unsupported output format: " ++ stringsToLower lib.lowerTable tok ++ "\n"] ∧
      (stringsToLower lib.lowerTable tok ≠ tok →
        ("Unsupported output format: " ++ tok ++ "\n")
          ∉ (main lib [prog, inp, out, tok] fs).stdout)) := by
  constructor
  · cases hsel : selectEncoder (stringsToLower lib.lowerTable tok) with
    | none =>
      rw [main_unsupported lib prog inp out tok fs file img formatName hopen hdec hcreate
        hsel]
      simp [FS.create]
    | some enc =>
      rw [main_supported lib prog inp out tok fs file img formatName enc hopen hdec hcreate
        hsel]
      simp [FS.write]
  · intro htok
    have hsel := (selectEncoder_eq_none_iff _).2 htok
    rw [main_unsupported lib prog inp out tok fs file img formatName hopen hdec hcreate hsel]
    refine ⟨FS.create_same _ _, rfl, ?_⟩
    intro hne hmem
    simp only [List.mem_cons, List.mem_singleton, List.not_mem_nil, or_false] at hmem
    rcases hmem with h | h
    · exact inputFormatLine_ne_unsupportedLine formatName tok h.symm
    · exact hne (unsupportedLine_injective _ _ h).symm

theorem C10_create_before_validation_witness :
    demoLib.osOpen demoFS "in.png" = Except.ok [137, 7] ∧
    demoLib.imageDecode [137, 7] = Except.ok (7, "png") ∧
    demoLib.osCreate demoFS "out.png" = none ∧
    stringsToLower demoLib.lowerTable "WebP" ∉ supportedTokens ∧
    demoFS "out.png" = some [9, 9, 9, 9, 9] ∧
    (main demoLib ["convert", "in.png", "out.png", "WebP"] demoFS).fs "out.png" = some [] ∧
    (main demoLib ["convert", "in.png", "out.png", "WebP"] demoFS).stdout
      = ["Input image format: png\n", "Unsupported output format: webp\n"] :=
  ⟨rfl, rfl, by decide, by decide, by decide,
   ((C10_create_before_validation demoLib "convert" "in.png" "out.png" "WebP" demoFS
      [137, 7] 7 "png" rfl rfl (by decide)).2 (by decide)).1,
   ((C10_create_before_validation demoLib "convert" "in.png" "out.png" "WebP" demoFS
      [137, 7] 7 "png" rfl rfl (by decide)).2 (by decide)).2.1⟩

end Imagego
